import Mathlib

/-
Verification of Ch11_Training_Deep_Neural_Nets.ipynb.

The notebook is tutorial prose with code cells.  The mathematical update
rules (Adam, AdaGrad, batch normalization, Xavier initialization, leaky
ReLU, gradient clipping) are embedded over ℚ, componentwise where the
source formulas use elementwise vector operations (⊗ is the elementwise
product).  Square roots appearing in the formulas are embedded by passing
the root explicitly and hypothesising its defining equation, which keeps
every definition executable over ℚ.
-/

/-! ### Activation functions (cell 8) -/

/-- `leaky_rlu` from the activations cell: `tf.maximum(0.01*z, z)`. -/
def leaky_rlu (z : ℚ) : ℚ := max (0.01 * z) z

/-! ### Xavier initialization (markdown cell 5) -/

/-- Squared radius r² of the Xavier uniform rule, where r = √(6/(n_inputs+n_outputs)). -/
def xavier_r_sq (nInputs nOutputs : ℕ) : ℚ := 6 / (nInputs + nOutputs)

/-- σ² of the Xavier normal rule, where σ = √(2/(n_inputs+n_outputs)), μ = 0. -/
def xavier_sigma_sq (nInputs nOutputs : ℕ) : ℚ := 2 / (nInputs + nOutputs)

/-- Variance of the uniform distribution on [−r, +r] as a function of r²: Var = r²/3. -/
def uniformVarOfRSq (rSq : ℚ) : ℚ := rSq / 3

/-! ### Batch Normalization algorithm (markdown cell 10, steps 1-4) -/

/-- Step 1: μ_B = (1/m_B) Σᵢ x⁽ⁱ⁾, the batch mean. -/
def mu_B (xs : List ℚ) : ℚ := xs.sum / xs.length

/-- Step 2: σ_B² = (1/m_B) Σᵢ (x⁽ⁱ⁾ − μ_B)², the batch variance. -/
def sigma_B_sq (xs : List ℚ) : ℚ := ((xs.map fun x => (x - mu_B xs) ^ 2).sum) / xs.length

/-- Step 3: x̂⁽ⁱ⁾ = (x⁽ⁱ⁾ − μ_B)/√(σ_B²+ε).  The square root √(σ_B²+ε) is passed
    explicitly as `s`; theorems hypothesise `s^2 = sigma_B_sq xs + ε`. -/
def xhat (s : ℚ) (xs : List ℚ) : List ℚ := xs.map fun x => (x - mu_B xs) / s

/-- Step 4: z⁽ⁱ⁾ = γ x̂⁽ⁱ⁾ + β. -/
def zout (gam bet : ℚ) (xh : List ℚ) : List ℚ := xh.map fun x => gam * x + bet

/-- The full four-step batch-normalization pipeline. -/
def batchNorm (gam bet s : ℚ) (xs : List ℚ) : List ℚ := zout gam bet (xhat s xs)

/-! ### Gradient clipping (cell 17) -/

/-- `threshold = 1.0` from the Gradient Clipping cell. -/
def threshold : ℚ := 1

/-- `tf.clip_by_value(t, lo, hi)`: componentwise min(max(t, lo), hi). -/
def clip_by_value (x lo hi : ℚ) : ℚ := min (max x lo) hi

/-- `capped_gvs`: clip each gradient of `grads_and_vars` to [−threshold, threshold]
    componentwise, keeping the paired variable.  A gradient is its list of
    components; variables are indexed by ℕ. -/
def capped_gvs (grads_and_vars : List (List ℚ × ℕ)) : List (List ℚ × ℕ) :=
  grads_and_vars.map fun gv =>
    ((gv.1.map fun x => clip_by_value x (-threshold) threshold), gv.2)

/-! ### AdaGrad accumulation (markdown cell 46, eq. 1) -/

/-- AdaGrad: s ← s + ∇J(θ) ⊗ ∇J(θ), iterated from `s0` along the gradient
    sequence `g` (⊗ is the elementwise product). -/
def adagradS {n : ℕ} (s0 : Fin n → ℚ) (g : ℕ → Fin n → ℚ) : ℕ → Fin n → ℚ
  | 0 => s0
  | k + 1 => fun i => adagradS s0 g k i + g k i * g k i

/-! ### Adam update rule (markdown cell 52, eqs. 1-4) -/

/-- Adam step 1: m ← β₁ m + (1 − β₁) ∇J(θ), componentwise. -/
def adamStep1 {n : ℕ} (beta1 : ℚ) (m g : Fin n → ℚ) : Fin n → ℚ :=
  fun i => beta1 * m i + (1 - beta1) * g i

/-- Adam step 2: s ← β₂ s + (1 − β₂) ∇J(θ) ⊗ ∇J(θ), componentwise. -/
def adamStep2 {n : ℕ} (beta2 : ℚ) (s g : Fin n → ℚ) : Fin n → ℚ :=
  fun i => beta2 * s i + (1 - beta2) * (g i * g i)

/-- First moment after T iterations of step 1 with the gradient held constant
    at `g`, starting from m = 0. -/
def adamM {n : ℕ} (beta1 : ℚ) (g : Fin n → ℚ) : ℕ → Fin n → ℚ
  | 0 => fun _ => 0
  | T + 1 => adamStep1 beta1 (adamM beta1 g T) g

/-- Second moment after T iterations of step 2 with the gradient held constant
    at `g`, starting from s = 0. -/
def adamS {n : ℕ} (beta2 : ℚ) (g : Fin n → ℚ) : ℕ → Fin n → ℚ
  | 0 => fun _ => 0
  | T + 1 => adamStep2 beta2 (adamS beta2 g T) g

/-- Adam steps 3/4: bias correction v ← v / (1 − β^T). -/
def biasCorrect {n : ℕ} (beta : ℚ) (T : ℕ) (v : Fin n → ℚ) : Fin n → ℚ :=
  fun i => v i / (1 - beta ^ T)

/-! ### Deep embedding of the notebook's code cells

Each code cell is embedded as a small Python statement AST.  A call site is
identified by the function it calls (enumerated below), since the claims
settled on this embedding — presence of exception-handling constructs,
propagation of framework errors, and effects on the durable store — depend
only on the statement structure and on which framework call each statement
performs, not on the argument expressions. -/

inductive ModuleName where
  | future | numpy | os | matplotlib | matplotlibPyplot | tensorflow
  | tfContribLayersFullyConnected | functools
deriving DecidableEq

inductive MagicName where
  | matplotlibInline
deriving DecidableEq

inductive FuncName where
  | resetGraph | leakyRlu
deriving DecidableEq

/-- Left-hand sides of the assignments appearing in the code cells. -/
inductive VarName where
  | rcAxesLabelsize | rcXtickLabelsize | rcYtickLabelsize | projectRootDir
  | chapterId | hidden1 | hidden2 | nInputs | nHidden1 | nHidden2 | nOutputs
  | X | training | bn1 | bn1Act | bn2 | bn2Act | logitsBeforeBn | logits
  | myBatchNormLayer | threshold | optimizer | gradsAndVars | cappedGvs
  | trainingOp | reuseVars | reuseVarsDict | restoreSaver | init | saver
  | xBatchYBatch | accuracyVal | savePath | originalW | originalB
  | hidden1Weights | hidden1Biases | originalWeights | originalBiases
  | assignHidden1Weights | assignHidden1Biases | trainVars | baseLoss
  | regLosses | loss | myDenseLayer | dropoutRate | xDrop | hidden1Drop
  | hidden2Drop
deriving DecidableEq

/-- The framework/library call sites appearing in the code cells, one
    constructor per call site kind.  `restoreSaverRestore` is
    `restore_saver.restore(sess, "./my_model_final.ckpt")` and `saverSave` is
    `saver.save(sess, "./my_new_model_final.ckpt")`. -/
inductive CallName where
  | tfResetDefaultGraph | tfSetRandomSeed | npRandomSeed | tfMaximum
  | fullyConnected | resetGraphFn | tfPlaceholder | tfPlaceholderWithDefault
  | tfLayersDense | tfLayersBatchNormalization | tfNnElu | makePartial
  | myBatchNormLayerCall | tfTrainGradientDescentOptimizer | computeGradients
  | tfClipByValue | applyGradients | tfGetCollection | dictBuild
  | tfTrainSaver | tfGlobalVariablesInit | tfSession | initRun
  | restoreSaverRestore | mnistNextBatch | sessRunTrainingOp | accuracyEval
  | printFn | saverSave | tfVariableScope | tfGetVariable | tfAssign
  | sessRunInit | sessRunAssignW | sessRunAssignB | optimizerMinimize
  | tfTrainMomentumOptimizer | tfTrainAdagradOptimizer
  | tfTrainRmsPropOptimizer | tfTrainAdamOptimizer | tfReduceMean
  | tfReduceSum | tfAdd | tfAddN | myDenseLayerCall | tfNameScope
  | tfLayersDropout
deriving DecidableEq

/-- Checkpoint paths appearing in the notebook:
    "./my_model_final.ckpt" and "./my_new_model_final.ckpt". -/
inductive CkptPath where
  | myModelFinalCkpt
  | myNewModelFinalCkpt
deriving DecidableEq

mutual
/-- A Python statement of the notebook's code cells. -/
inductive PyStmt where
  | imp (m : ModuleName)
  | magic (m : MagicName)
  | assignLit (lhs : VarName)
  | assignCall (lhs : VarName) (f : CallName)
  | exprCall (f : CallName)
  | ret (f : CallName)
  | funcDef (f : FuncName) (b : PyBlock)
  | withBlock (ctx : CallName) (b : PyBlock)
  | forLoop (b : PyBlock)
  | tryBlock (b h : PyBlock)
  | raiseStmt
deriving DecidableEq
/-- A suite of statements. -/
inductive PyBlock where
  | nil
  | cons (s : PyStmt) (r : PyBlock)
deriving DecidableEq
end

/-- Build a suite from a list of statements. -/
def blk : List PyStmt → PyBlock
  | [] => .nil
  | s :: r => .cons s (blk r)

mutual
/-- Does a statement contain an exception-handling construct (try/except or
    raise), at any nesting depth? -/
def stmtHasHandler : PyStmt → Bool
  | .tryBlock _ _ => true
  | .raiseStmt => true
  | .funcDef _ b => blockHasHandler b
  | .withBlock _ b => blockHasHandler b
  | .forLoop b => blockHasHandler b
  | _ => false
def blockHasHandler : PyBlock → Bool
  | .nil => false
  | .cons s r => stmtHasHandler s || blockHasHandler r
end

/-- An error escaping a snippet: raised inside a framework call, or by an
    explicit raise statement. -/
inductive PyErr where
  | fromCall (c : CallName)
  | explicitRaise
deriving DecidableEq

mutual
/-- Run one statement under a fault oracle `fault` naming the framework calls
    that raise; `some e` means the error `e` escapes the statement.  Defining
    a function does not run its body; a for-loop is abstracted as one pass
    over its body (enough for error propagation); a with-block evaluates its
    context call, then runs its body; try/except runs its handler when the
    body raises. -/
def runStmt : PyStmt → (CallName → Bool) → Option PyErr
  | .imp _, _ => none
  | .magic _, _ => none
  | .assignLit _, _ => none
  | .assignCall _ c, fault => if fault c then some (.fromCall c) else none
  | .exprCall c, fault => if fault c then some (.fromCall c) else none
  | .ret c, fault => if fault c then some (.fromCall c) else none
  | .funcDef _ _, _ => none
  | .withBlock c b, fault => if fault c then some (.fromCall c) else runBlock b fault
  | .forLoop b, fault => runBlock b fault
  | .tryBlock b h, fault =>
    match runBlock b fault with
    | some _ => runBlock h fault
    | none => none
  | .raiseStmt, _ => some .explicitRaise
def runBlock : PyBlock → (CallName → Bool) → Option PyErr
  | .nil, _ => none
  | .cons s r, fault =>
    match runStmt s fault with
    | some e => some e
    | none => runBlock r fault
end

/-- The durable store: the set of checkpoint files present on disk. -/
abbrev Store := List CkptPath

/-- Add a file to the durable store. -/
def insertCkpt (p : CkptPath) (st : Store) : Store := if p ∈ st then st else p :: st

/-- Durable-store effect of a single framework call.  `saverSave` is the
    `saver.save(sess, "./my_new_model_final.ckpt")` call site: TF's
    `Saver.save` writes a checkpoint at the given path (modelled from the
    framework's documented behaviour).  `restoreSaverRestore` only reads
    "./my_model_final.ckpt"; every other call builds in-memory graph state or
    runs in-memory computation and leaves the file system untouched. -/
def storeEffect : CallName → Store → Store
  | .saverSave, st => insertCkpt .myNewModelFinalCkpt st
  | _, st => st

mutual
/-- Durable-store effect of running a statement (fault-free execution).
    Function bodies are not run at their definition; a for-loop body is run
    once, which suffices because `storeEffect` is idempotent on every call the
    loop bodies make (they make none that touch the store). -/
def storeStmt : PyStmt → Store → Store
  | .assignCall _ c, st => storeEffect c st
  | .exprCall c, st => storeEffect c st
  | .ret c, st => storeEffect c st
  | .withBlock c b, st => storeBlock b (storeEffect c st)
  | .forLoop b, st => storeBlock b st
  | .tryBlock b _, st => storeBlock b st
  | _, st => st
def storeBlock : PyBlock → Store → Store
  | .nil, st => st
  | .cons s r, st => storeBlock r (storeStmt s st)
end

/-! ### The notebook's code cells, transcribed -/

/-- Chapter Setup cell: imports, `reset_graph`, matplotlib configuration. -/
def cellSetup : PyBlock := blk [
  .imp .future, .imp .numpy, .imp .os,
  .funcDef .resetGraph (blk [
    .exprCall .tfResetDefaultGraph, .exprCall .tfSetRandomSeed,
    .exprCall .npRandomSeed ]),
  .magic .matplotlibInline, .imp .matplotlib, .imp .matplotlibPyplot,
  .assignLit .rcAxesLabelsize, .assignLit .rcXtickLabelsize,
  .assignLit .rcYtickLabelsize, .assignLit .projectRootDir,
  .assignLit .chapterId ]

/-- Nonsaturating-activation cell: `leaky_rlu` and the two
    `fully_connected` layers. -/
def cellActivations : PyBlock := blk [
  .imp .tensorflow, .imp .tfContribLayersFullyConnected,
  .funcDef .leakyRlu (blk [ .ret .tfMaximum ]),
  .assignCall .hidden1 .fullyConnected, .assignCall .hidden1 .fullyConnected ]

/-- Batch Normalization construction cell. -/
def cellBatchNorm : PyBlock := blk [
  .exprCall .resetGraphFn, .imp .tensorflow,
  .assignLit .nInputs, .assignLit .nHidden1, .assignLit .nHidden2,
  .assignLit .nOutputs,
  .assignCall .X .tfPlaceholder,
  .assignCall .training .tfPlaceholderWithDefault,
  .assignCall .hidden1 .tfLayersDense,
  .assignCall .bn1 .tfLayersBatchNormalization,
  .assignCall .bn1Act .tfNnElu,
  .assignCall .hidden2 .tfLayersDense,
  .assignCall .bn2 .tfLayersBatchNormalization,
  .assignCall .bn2Act .tfNnElu,
  .assignCall .logitsBeforeBn .tfLayersDense,
  .assignCall .logits .tfLayersBatchNormalization ]

/-- Batch Normalization cell rewritten with `functools`. -/
def cellBatchNormCompact : PyBlock := blk [
  .imp .functools,
  .assignCall .myBatchNormLayer .makePartial,
  .assignCall .hidden1 .tfLayersDense,
  .assignCall .bn1 .myBatchNormLayerCall,
  .assignCall .bn1Act .tfNnElu,
  .assignCall .hidden2 .tfLayersDense,
  .assignCall .bn2 .myBatchNormLayerCall,
  .assignCall .bn2Act .tfNnElu,
  .assignCall .logitsBeforeBn .tfLayersDense,
  .assignCall .logits .myBatchNormLayerCall ]

/-- Gradient Clipping cell: compute, clip, apply. -/
def cellGradClip : PyBlock := blk [
  .assignLit .threshold,
  .assignCall .optimizer .tfTrainGradientDescentOptimizer,
  .assignCall .gradsAndVars .computeGradients,
  .assignCall .cappedGvs .tfClipByValue,
  .assignCall .trainingOp .applyGradients ]

/-- Reusing a TensorFlow Model cell: restore layers 1-3, train, save. -/
def cellReuseModel : PyBlock := blk [
  .assignCall .reuseVars .tfGetCollection,
  .assignCall .reuseVarsDict .dictBuild,
  .assignCall .restoreSaver .tfTrainSaver,
  .assignCall .init .tfGlobalVariablesInit,
  .assignCall .saver .tfTrainSaver,
  .withBlock .tfSession (blk [
    .exprCall .initRun,
    .exprCall .restoreSaverRestore,
    .forLoop (blk [
      .forLoop (blk [
        .assignCall .xBatchYBatch .mnistNextBatch,
        .exprCall .sessRunTrainingOp ]),
      .assignCall .accuracyVal .accuracyEval,
      .exprCall .printFn ]),
    .assignCall .savePath .saverSave ]) ]

/-- Reusing Models from Other Frameworks cell. -/
def cellReuseOther : PyBlock := blk [
  .assignLit .nInputs, .assignLit .nHidden1,
  .assignLit .originalW, .assignLit .originalB,
  .assignCall .X .tfPlaceholder,
  .assignCall .hidden1 .tfLayersDense,
  .withBlock .tfVariableScope (blk [
    .assignCall .hidden1Weights .tfGetVariable,
    .assignCall .hidden1Biases .tfGetVariable ]),
  .assignCall .originalWeights .tfPlaceholder,
  .assignCall .originalBiases .tfPlaceholder,
  .assignCall .assignHidden1Weights .tfAssign,
  .assignCall .assignHidden1Biases .tfAssign,
  .assignCall .init .tfGlobalVariablesInit,
  .withBlock .tfSession (blk [
    .exprCall .sessRunInit,
    .exprCall .sessRunAssignW,
    .exprCall .sessRunAssignB ]) ]

/-- Freezing the Lower Layers cell. -/
def cellFreeze : PyBlock := blk [
  .assignCall .trainVars .tfGetCollection,
  .assignCall .trainingOp .optimizerMinimize ]

/-- Nesterov Accelerated Gradient optimizer cell. -/
def cellNesterovOpt : PyBlock := blk [
  .assignCall .optimizer .tfTrainMomentumOptimizer ]

/-- Ada Grad optimizer cell. -/
def cellAdagradOpt : PyBlock := blk [
  .assignCall .optimizer .tfTrainAdagradOptimizer ]

/-- RMSProp optimizer cell. -/
def cellRmsPropOpt : PyBlock := blk [
  .assignCall .optimizer .tfTrainRmsPropOptimizer ]

/-- Adam optimizer cell. -/
def cellAdamOpt : PyBlock := blk [
  .assignCall .optimizer .tfTrainAdamOptimizer ]

/-- Manual l1 regularization cell. -/
def cellL1Manual : PyBlock := blk [
  .assignCall .baseLoss .tfReduceMean,
  .assignCall .regLosses .tfReduceSum,
  .assignCall .loss .tfAdd ]

/-- Builtin l1 regularization cell (dense layers with kernel regularizer). -/
def cellL1Layers : PyBlock := blk [
  .assignCall .myDenseLayer .makePartial,
  .withBlock .tfNameScope (blk [
    .assignCall .hidden1 .myDenseLayerCall,
    .assignCall .hidden2 .myDenseLayerCall,
    .assignCall .logits .myDenseLayerCall ]) ]

/-- Regularization-losses collection cell. -/
def cellRegLosses : PyBlock := blk [
  .assignCall .regLosses .tfGetCollection,
  .assignCall .loss .tfAddN ]

/-- Dropout cell: training placeholder defaulting to False, dropout on X,
    hidden1 and hidden2. -/
def cellDropout : PyBlock := blk [
  .assignCall .training .tfPlaceholderWithDefault,
  .assignLit .dropoutRate,
  .assignCall .xDrop .tfLayersDropout,
  .withBlock .tfNameScope (blk [
    .assignCall .hidden1 .tfLayersDense,
    .assignCall .hidden1Drop .tfLayersDropout,
    .assignCall .hidden2 .tfLayersDense,
    .assignCall .hidden2Drop .tfLayersDropout,
    .assignCall .logits .tfLayersDense ]) ]

/-- All code cells of the notebook, in order. -/
def notebookCells : List PyBlock := [
  cellSetup, cellActivations, cellBatchNorm, cellBatchNormCompact,
  cellGradClip, cellReuseModel, cellReuseOther, cellFreeze, cellNesterovOpt,
  cellAdagradOpt, cellRmsPropOpt, cellAdamOpt, cellL1Manual, cellL1Layers,
  cellRegLosses, cellDropout ]

/-! ### `reset_graph` and the global random state (setup cell) -/

/-- The global framework state touched by `reset_graph`: the default graph
    (abstracted as the list of ops built so far), TF's graph-level random
    seed, and NumPy's global random seed. -/
structure TFState where
  graphOps : List CallName
  tfRandomSeed : ℕ
  npRandomSeed : ℕ
deriving DecidableEq

/-- `tf.reset_default_graph()`: empties the default graph. -/
def tf_reset_default_graph (s : TFState) : TFState :=
  ⟨[], s.tfRandomSeed, s.npRandomSeed⟩

/-- `tf.set_random_seed(seed)`: sets the graph-level random seed. -/
def tf_set_random_seed (seed : ℕ) (s : TFState) : TFState :=
  ⟨s.graphOps, seed, s.npRandomSeed⟩

/-- `np.random.seed(seed)`: seeds NumPy's global generator. -/
def np_random_seed (seed : ℕ) (s : TFState) : TFState :=
  ⟨s.graphOps, s.tfRandomSeed, seed⟩

/-- The default value of `reset_graph`'s `seed` parameter. -/
def reset_graph_default_seed : ℕ := 42

/-- `reset_graph(seed=42)` from the setup cell: resets the default graph,
    then seeds TF's graph-level generator and NumPy's global generator with
    the same given seed. -/
def reset_graph (seed : ℕ) (s : TFState) : TFState :=
  np_random_seed seed (tf_set_random_seed seed (tf_reset_default_graph s))

/-! ### Dropout cell semantics -/

/-- `tf.placeholder_with_default(dflt, ...)`: the placeholder takes the fed
    value when one is fed and `dflt` otherwise. -/
def placeholder_with_default (dflt : Bool) (fed : Option Bool) : Bool :=
  fed.getD dflt

/-- `dropout_rate = 0.5` from the Dropout cell. -/
def dropout_rate : ℚ := 0.5

/-- Modelled from the spec: `tf.layers.dropout(x, rate, training)` is the
    external framework's dropout layer ("regularization technique randomly
    deactivating neurons during training"); its body is not part of this
    repository.  In training mode neuron i is kept iff `keepMask i`, kept
    values are rescaled by 1/(1 − rate) and dropped ones become 0; in
    inference mode (`training = false`) the input is returned unchanged. -/
def tf_layers_dropout (x : List ℚ) (rate : ℚ) (training : Bool)
    (keepMask : ℕ → Bool) : List ℚ :=
  if training then
    ((List.range x.length).zip x).map fun p =>
      if keepMask p.1 then p.2 / (1 - rate) else 0
  else x

/-- The Dropout cell's data flow: `training` is a placeholder defaulting to
    False; X, hidden1 and hidden2 are each passed through
    `tf.layers.dropout`; the dense layers are abstract functions of their
    input.  Returns (X_drop, hidden1_drop, hidden2_drop, logits). -/
def dropoutSnippet (fed : Option Bool) (m1 m2 m3 : ℕ → Bool)
    (dense1 dense2 dense3 : List ℚ → List ℚ) (X : List ℚ) :
    List ℚ × List ℚ × List ℚ × List ℚ :=
  let training := placeholder_with_default false fed
  let X_drop := tf_layers_dropout X dropout_rate training m1
  let hidden1 := dense1 X_drop
  let hidden1_drop := tf_layers_dropout hidden1 dropout_rate training m2
  let hidden2 := dense2 hidden1_drop
  let hidden2_drop := tf_layers_dropout hidden2 dropout_rate training m3
  let logits := dense3 hidden2_drop
  (X_drop, hidden1_drop, hidden2_drop, logits)

/-! ### Helper lemmas -/

theorem list_sum_map_sub (xs : List ℚ) (c : ℚ) :
    (xs.map fun x => x - c).sum = xs.sum - xs.length * c := by
  induction xs with
  | nil => simp
  | cons a t ih => simp [ih]; ring

theorem list_sum_map_div (xs : List ℚ) (f : ℚ → ℚ) (s : ℚ) :
    (xs.map fun x => f x / s).sum = (xs.map f).sum / s := by
  induction xs with
  | nil => simp
  | cons a t ih => simp [ih, add_div]

/-- The sum of deviations from the batch mean vanishes. -/
theorem sum_dev_mu_B (xs : List ℚ) (hne : xs ≠ []) :
    (xs.map fun x => x - mu_B xs).sum = 0 := by
  have hlp : 0 < xs.length := List.length_pos.mpr hne
  have hlen : (xs.length : ℚ) ≠ 0 := by exact_mod_cast hlp.ne'
  rw [list_sum_map_sub, mu_B, mul_div_cancel₀ _ hlen, sub_self]

/-- Closed form for the Adam first moment: m_T = (1 − β₁^T)·g. -/
theorem adamM_closed {n : ℕ} (beta1 : ℚ) (g : Fin n → ℚ) (T : ℕ) (i : Fin n) :
    adamM beta1 g T i = (1 - beta1 ^ T) * g i := by
  induction T with
  | zero => simp [adamM]
  | succ T ih => simp [adamM, adamStep1, ih, pow_succ]; ring

/-- Closed form for the Adam second moment: s_T = (1 − β₂^T)·(g⊗g). -/
theorem adamS_closed {n : ℕ} (beta2 : ℚ) (g : Fin n → ℚ) (T : ℕ) (i : Fin n) :
    adamS beta2 g T i = (1 - beta2 ^ T) * (g i * g i) := by
  induction T with
  | zero => simp [adamS]
  | succ T ih => simp [adamS, adamStep2, ih, pow_succ]; ring

/-- The accumulator component never decreases when a square is added. -/
theorem adagradS_mono {n : ℕ} (s0 : Fin n → ℚ) (g : ℕ → Fin n → ℚ) (i : Fin n)
    {j k : ℕ} (hjk : j ≤ k) : adagradS s0 g j i ≤ adagradS s0 g k i := by
  induction k, hjk using Nat.le_induction with
  | base => exact le_refl _
  | succ m hm ih =>
    refine le_trans ih ?_
    have hsq : 0 ≤ g m i * g m i := mul_self_nonneg _
    simp only [adagradS]
    linarith

/-! ### Claim theorems -/

/-- C5: `leaky_rlu` equals LeakyReLU with α = 0.01: it is max(0.01 z, z), returns z
    for z ≥ 0, returns 0.01 z for z < 0, and is nonzero whenever z ≠ 0. -/
theorem C5_leaky_rlu_spec (z : ℚ) :
    leaky_rlu z = max (1 / 100 * z) z ∧
    (0 ≤ z → leaky_rlu z = z) ∧
    (z < 0 → leaky_rlu z = 1 / 100 * z) ∧
    (z ≠ 0 → leaky_rlu z ≠ 0) := by
  have h001 : (0.01 : ℚ) = 1 / 100 := by norm_num
  refine ⟨by rw [leaky_rlu, h001], ?_, ?_, ?_⟩
  · intro hz
    rw [leaky_rlu, h001, max_eq_right]
    nlinarith
  · intro hz
    rw [leaky_rlu, h001, max_eq_left]
    nlinarith
  · intro hz
    rcases lt_or_gt_of_ne hz with h | h
    · rw [leaky_rlu, h001, max_eq_left (by nlinarith)]
      intro hc
      have : z = 0 := by linarith [ (by linarith : (1:ℚ)/100 * z = 0) ]
      exact hz this
    · rw [leaky_rlu, h001, max_eq_right (by nlinarith)]
      exact hz

/-- C5 witness at z = −2. -/
theorem C5_leaky_rlu_witness :
    leaky_rlu (-2) = 1 / 100 * (-2) ∧ leaky_rlu (-2) ≠ 0 := by
  have h := C5_leaky_rlu_spec (-2)
  exact ⟨h.2.2.1 (by norm_num), h.2.2.2 (by norm_num)⟩

/-- C6: the two Xavier rules agree in variance: the uniform rule's variance
    r²/3 with r² = 6/(n_in+n_out) equals σ² = 2/(n_in+n_out) of the normal rule. -/
theorem C6_xavier_variance_match (nInputs nOutputs : ℕ)
    (hIn : 0 < nInputs) (hOut : 0 < nOutputs) :
    uniformVarOfRSq (xavier_r_sq nInputs nOutputs) = xavier_sigma_sq nInputs nOutputs := by
  have hpos : (0 : ℚ) < (nInputs : ℚ) + (nOutputs : ℚ) := by
    have : (0 : ℚ) < (nInputs : ℚ) := by exact_mod_cast hIn
    have h2 : (0 : ℚ) ≤ (nOutputs : ℚ) := by positivity
    linarith
  rw [uniformVarOfRSq, xavier_r_sq, xavier_sigma_sq, div_div]
  rw [div_eq_div_iff (by positivity) hpos.ne']
  ring

/-- C6 witness at n_inputs = 3, n_outputs = 9. -/
theorem C6_xavier_variance_witness :
    uniformVarOfRSq (xavier_r_sq 3 9) = xavier_sigma_sq 3 9 :=
  C6_xavier_variance_match 3 9 (by norm_num) (by norm_num)

/-- C1: with the gradient held constant at g and m = s = 0 initially, for every
    β₁, β₂ ∈ [0,1) and every T ≥ 1, the bias-corrected first moment after step 3
    equals g exactly and the bias-corrected second moment after step 4 equals
    g⊗g exactly (m_T = (1 − β₁^T)·g before correction). -/
theorem C1_adam_bias_correction {n : ℕ} (beta1 beta2 : ℚ) (g : Fin n → ℚ) (T : ℕ)
    (h1l : 0 ≤ beta1) (h1u : beta1 < 1) (h2l : 0 ≤ beta2) (h2u : beta2 < 1)
    (hT : 1 ≤ T) :
    biasCorrect beta1 T (adamM beta1 g T) = g ∧
    biasCorrect beta2 T (adamS beta2 g T) = fun i => g i * g i := by
  have hT0 : T ≠ 0 := by omega
  have h1 : (1 : ℚ) - beta1 ^ T ≠ 0 :=
    sub_ne_zero.mpr (ne_of_gt (pow_lt_one₀ h1l h1u hT0))
  have h2 : (1 : ℚ) - beta2 ^ T ≠ 0 :=
    sub_ne_zero.mpr (ne_of_gt (pow_lt_one₀ h2l h2u hT0))
  constructor
  · funext i
    simp only [biasCorrect, adamM_closed]
    rw [mul_comm, mul_div_assoc, div_self h1, mul_one]
  · funext i
    simp only [biasCorrect, adamS_closed]
    rw [mul_comm, mul_div_assoc, div_self h2, mul_one]

/-- C1 witness at β₁ = 1/2, β₂ = 1/3, T = 2, g = (2) over one component. -/
theorem C1_adam_bias_correction_witness :
    biasCorrect (1 / 2) 2 (adamM (1 / 2) (fun _ : Fin 1 => 2) 2) = (fun _ : Fin 1 => 2) ∧
    biasCorrect (1 / 3) 2 (adamS (1 / 3) (fun _ : Fin 1 => 2) 2) =
      fun i : Fin 1 => (fun _ : Fin 1 => (2 : ℚ)) i * (fun _ : Fin 1 => (2 : ℚ)) i :=
  C1_adam_bias_correction (1 / 2) (1 / 3) (fun _ => 2) 2
    (by norm_num) (by norm_num) (by norm_num) (by norm_num) (by norm_num)

/-- C2: for every non-empty rational batch, the normalized values x̂⁽ⁱ⁾ of the
    four-step batch-normalization algorithm have batch mean exactly 0; when
    ε = 0 and σ_B² > 0 their batch variance is exactly 1; and the final output
    is the affine transform z⁽ⁱ⁾ = γ x̂⁽ⁱ⁾ + β of the normalized values.
    The square root in step 3 is the hypothesised `s` with s² = σ_B² + ε. -/
theorem C2_batch_normalization (xs : List ℚ) (gam bet eps s : ℚ) (hne : xs ≠ [])
    (hs : s ^ 2 = sigma_B_sq xs + eps) :
    mu_B (xhat s xs) = 0 ∧
    (eps = 0 → 0 < sigma_B_sq xs → sigma_B_sq (xhat s xs) = 1) ∧
    batchNorm gam bet s xs = (xhat s xs).map fun v => gam * v + bet := by
  have hlp : 0 < xs.length := List.length_pos.mpr hne
  have hlen : (xs.length : ℚ) ≠ 0 := by exact_mod_cast hlp.ne'
  have hmean : mu_B (xhat s xs) = 0 := by
    rw [mu_B, xhat, List.length_map]
    rw [list_sum_map_div xs (fun x => x - mu_B xs) s]
    rw [sum_dev_mu_B xs hne]
    simp
  refine ⟨hmean, ?_, rfl⟩
  intro heps hpos
  have hs2 : s ^ 2 = sigma_B_sq xs := by rw [hs, heps, add_zero]
  rw [sigma_B_sq, hmean, xhat, List.length_map, List.map_map]
  simp only [Function.comp_def, sub_zero, div_pow]
  rw [list_sum_map_div xs (fun x => (x - mu_B xs) ^ 2) (s ^ 2)]
  rw [hs2, sigma_B_sq]
  have hA : (xs.map fun x => (x - mu_B xs) ^ 2).sum ≠ 0 := by
    intro h0
    rw [sigma_B_sq, h0] at hpos
    simp at hpos
  field_simp

/-- C2 witness at the batch [1, 3] with γ = 5, β = 7, ε = 0, s = 1
    (μ_B = 2, σ_B² = 1, √(σ_B²+ε) = 1). -/
theorem C2_batch_normalization_witness :
    mu_B (xhat 1 [1, 3]) = 0 ∧
    ((0 : ℚ) = 0 → 0 < sigma_B_sq [1, 3] → sigma_B_sq (xhat 1 [1, 3]) = 1) ∧
    batchNorm 5 7 1 [1, 3] = (xhat 1 [1, 3]).map fun v => 5 * v + 7 :=
  C2_batch_normalization [1, 3] 5 7 0 1 (by decide)
    (by norm_num [sigma_B_sq, mu_B])

/-- C4: with threshold = 1.0, every component of every clipped gradient in
    `capped_gvs` lies in [−threshold, threshold], every gradient component
    already in that interval is returned unchanged by `clip_by_value`, and the
    paired variables are untouched. -/
theorem C4_gradient_clipping (grads_and_vars : List (List ℚ × ℕ)) :
    (∀ p ∈ capped_gvs grads_and_vars, ∀ c ∈ p.1, -threshold ≤ c ∧ c ≤ threshold) ∧
    (∀ g v, (g, v) ∈ grads_and_vars → ∀ c ∈ g,
      -threshold ≤ c → c ≤ threshold → clip_by_value c (-threshold) threshold = c) ∧
    (capped_gvs grads_and_vars).map Prod.snd = grads_and_vars.map Prod.snd := by
  refine ⟨?_, ?_, ?_⟩
  · intro p hp c hc
    rw [capped_gvs] at hp
    rcases List.mem_map.mp hp with ⟨gv, _, rfl⟩
    rcases List.mem_map.mp hc with ⟨x, _, rfl⟩
    rw [clip_by_value]
    refine ⟨le_min (le_max_right _ _) (by norm_num [threshold]), min_le_right _ _⟩
  · intro g v _ c _ h1 h2
    rw [clip_by_value, max_eq_left h1, min_eq_left h2]
  · simp [capped_gvs, List.map_map, Function.comp]

/-- C4 witness on grads_and_vars = [([2, 1/2, −3], 0)]: the clipped first
    component lies in [−1, 1] and the in-range component 1/2 is unchanged. -/
theorem C4_gradient_clipping_witness :
    (-threshold ≤ clip_by_value 2 (-threshold) threshold ∧
      clip_by_value 2 (-threshold) threshold ≤ threshold) ∧
    clip_by_value (1 / 2) (-threshold) threshold = 1 / 2 := by
  have h := C4_gradient_clipping [([2, 1 / 2, -3], 0)]
  refine ⟨?_, ?_⟩
  · exact h.1 ([2, 1 / 2, -3].map fun x => clip_by_value x (-threshold) threshold, 0)
      (by simp [capped_gvs]) (clip_by_value 2 (-threshold) threshold)
      (by simp [clip_by_value, threshold])
  · exact h.2.1 [2, 1 / 2, -3] 0 (by simp) (1 / 2) (by simp)
      (by norm_num [threshold]) (by norm_num [threshold])

/-- C8: under s ← s + ∇J ⊗ ∇J, each accumulator component is monotonically
    nondecreasing across iterations for every gradient sequence and every
    starting accumulator, and the per-component effective step size η/√(s+ε)
    is monotonically nonincreasing (the square roots a = √(s_j+ε), b = √(s_k+ε)
    are hypothesised). -/
theorem C8_adagrad_monotone {n : ℕ} (s0 : Fin n → ℚ) (g : ℕ → Fin n → ℚ) (i : Fin n)
    (j k : ℕ) (hjk : j ≤ k) (eta eps a b : ℚ) (heta : 0 ≤ eta)
    (ha : a ^ 2 = adagradS s0 g j i + eps) (hb : b ^ 2 = adagradS s0 g k i + eps)
    (ha0 : 0 < a) (hb0 : 0 ≤ b) :
    adagradS s0 g j i ≤ adagradS s0 g k i ∧ eta / b ≤ eta / a := by
  have hmono := adagradS_mono s0 g i hjk
  refine ⟨hmono, ?_⟩
  have hsq : a ^ 2 ≤ b ^ 2 := by rw [ha, hb]; linarith
  have hab : a ≤ b := by nlinarith
  have hb' : 0 < b := lt_of_lt_of_le ha0 hab
  rw [div_le_div_iff₀ hb' ha0]
  exact mul_le_mul_of_nonneg_left hab heta

/-- C8 witness: s₀ = 0, constant gradient 3/4, η = 1, ε = 1, j = 0, k = 1,
    with √(s₀+ε) = 1 and √(s₁+ε) = √(9/16+1) = 5/4. -/
theorem C8_adagrad_monotone_witness :
    adagradS (fun _ : Fin 1 => 0) (fun _ _ => 3 / 4) 0 0 ≤
      adagradS (fun _ : Fin 1 => 0) (fun _ _ => 3 / 4) 1 0 ∧
    (1 : ℚ) / (5 / 4) ≤ 1 / 1 :=
  C8_adagrad_monotone (fun _ : Fin 1 => 0) (fun _ _ => 3 / 4) 0 0 1 (by norm_num)
    1 1 1 (5 / 4) (by norm_num) (by norm_num [adagradS]) (by norm_num [adagradS])
    (by norm_num) (by norm_num)

/-- C7: no code cell of the notebook contains an exception-handling construct
    (try/except or raise) of its own, and a failure raised inside a framework
    call — here a bad checkpoint path failing `restore_saver.restore` —
    propagates out of its snippet unhandled. -/
theorem C7_no_error_handling :
    notebookCells.all (fun c => !blockHasHandler c) = true ∧
    runBlock cellReuseModel (fun c => c == CallName.restoreSaverRestore) =
      some (.fromCall .restoreSaverRestore) :=
  ⟨rfl, rfl⟩

/-- C3 counterexample: running the model-reuse snippet on a file system that
    holds only "./my_model_final.ckpt" adds "./my_new_model_final.ckpt" (via
    `saver.save`), so executing it does not leave the durable store
    unchanged. -/
theorem C3_counterexample :
    storeBlock cellReuseModel [CkptPath.myModelFinalCkpt] ≠
      [CkptPath.myModelFinalCkpt] := by
  decide

/-- C3 amended: executing a code cell changes the durable store at most
    through the `saver.save` call of the model-reuse snippet: every other
    cell leaves the store unchanged, and the model-reuse cell changes it
    exactly by writing the checkpoint "./my_new_model_final.ckpt". -/
theorem C3_amended_store_effects (st : Store) :
    (∀ cell ∈ notebookCells, cell ≠ cellReuseModel → storeBlock cell st = st) ∧
    storeBlock cellReuseModel st = insertCkpt .myNewModelFinalCkpt st := by
  constructor
  · intro cell hcell hne
    fin_cases hcell <;> first | rfl | exact absurd rfl hne
  · rfl

/-- C3 amended witness: on the empty store, the setup cell is a no-op and the
    model-reuse cell writes exactly the new checkpoint. -/
theorem C3_amended_store_effects_witness :
    storeBlock cellSetup [] = [] ∧
    storeBlock cellReuseModel [] = insertCkpt .myNewModelFinalCkpt [] := by
  have h := C3_amended_store_effects []
  exact ⟨h.1 cellSetup (by decide) (by decide), h.2⟩

/-- C9: `reset_graph` empties the default graph and then seeds both the
    graph-level and the NumPy generator with the same given seed (default 42);
    two runs calling it with the same seed from arbitrary prior global states
    end in identical states, so every subsequent pseudo-random draw (any
    function of the global state) coincides between the two runs. -/
theorem C9_reset_graph_determinism (seed : ℕ) (s1 s2 : TFState)
    (draws : TFState → List ℚ) :
    (reset_graph seed s1).tfRandomSeed = seed ∧
    (reset_graph seed s1).npRandomSeed = seed ∧
    (reset_graph seed s1).graphOps = [] ∧
    reset_graph seed s1 = reset_graph seed s2 ∧
    draws (reset_graph seed s1) = draws (reset_graph seed s2) ∧
    reset_graph_default_seed = 42 :=
  ⟨rfl, rfl, rfl, rfl, rfl, rfl⟩

/-- C10: with nothing fed for `training`, the placeholder resolves to its
    default False and every `tf.layers.dropout` call of the Dropout cell (on
    X, hidden1 and hidden2) is the identity on its input, for every mask and
    every dense layer — no neuron dropped, nothing rescaled; the placeholder
    resolves to True exactly when True is explicitly fed. -/
theorem C10_dropout_default_identity (m1 m2 m3 : ℕ → Bool)
    (dense1 dense2 dense3 : List ℚ → List ℚ) (X : List ℚ) :
    placeholder_with_default false none = false ∧
    dropoutSnippet none m1 m2 m3 dense1 dense2 dense3 X =
      (X, dense1 X, dense2 (dense1 X), dense3 (dense2 (dense1 X))) ∧
    placeholder_with_default false (some true) = true :=
  ⟨rfl, rfl, rfl⟩
